import Mathlib

/-!
Shallow embedding of the learn-transcription repository.

Sources embedded here:
  * `src/app/st-app.py`   — Streamlit UI: `load_models`, `process_audio`, the
    process-button handler, the clear-results handler, and the results view.
  * `src/programs/main.py` — batch script: diarize, slice, transcribe, and
    write plain-text transcript lines.
  * `src/programs/diarize.py` — batch diarization script (token handling).

Modelling conventions:
  * Times are rationals (Python floats are used only as exact times produced by
    the diarization model); waveform samples are rationals; sample rates are
    naturals.
  * The third-party models are parameters: a diarization pipeline is a function
    from an audio path to a list of (turn, track, speaker) entries, a
    transcription model is a function from a waveform slice to text.  Both may
    raise, which we model with `Except String`.
  * Python exceptions are `Except.error`; a library call that may raise is an
    `Except` value and the embedding propagates errors exactly where Python
    would.
-/

namespace LearnTranscription

/-- Python `int(q)` on a real number: truncation toward zero. -/
def pyInt (q : ℚ) : ℤ :=
  if 0 ≤ q then ⌊q⌋ else ⌈q⌉

/-- Python list slicing `y[a:b]`: negative indices count from the end, and both
bounds are clamped to `[0, len(y)]`. -/
def pySlice (y : List ℚ) (a b : ℤ) : List ℚ :=
  let n : ℤ := y.length
  let norm : ℤ → ℕ := fun i => (if i < 0 then max 0 (i + n) else min i n).toNat
  (y.take (norm b)).drop (norm a)

/-- Python truthiness of an optional string (`if not hf_token:` fires on both
`None` and the empty string). -/
def pyFalsy : Option String → Bool
  | none => true
  | some s => s = ""

/-- Python `s.strip()` with no argument: remove leading and trailing
whitespace. -/
def pyStrip (s : String) : String :=
  ⟨((s.data.dropWhile Char.isWhitespace).reverse.dropWhile
      Char.isWhitespace).reverse⟩

/-- A diarization turn, as produced by `pyannote`: start and end times in
seconds. -/
structure Turn where
  start : ℚ
  «end» : ℚ
  deriving Repr, DecidableEq

/-- One entry yielded by `diarization.itertracks(yield_label=True)`:
`(turn, track_name, speaker)`; the track name is ignored by this repository
(`for turn, _, speaker in ...`). -/
structure DiaTrack where
  turn : Turn
  track : String
  speaker : String
  deriving Repr, DecidableEq

/-- One output record of the aggregation step.  The source builds a Python dict
with exactly the four keys `start`, `end`, `speaker`, `text`
(`st-app.py` lines 76–83); this structure has exactly those fields. -/
structure Segment where
  start : ℚ
  «end» : ℚ
  speaker : String
  text : String
  deriving Repr, DecidableEq

/-- The two pretrained models, abstracted as functions.  `diarize` is
`diarization_pipeline(audio_path).itertracks(yield_label=True)` as a list;
`transcribe` is `model.transcribe(segment, fp16=False)["text"]` (the `fp16`
flag is a constant in the source and is dropped).  Either call may raise. -/
structure Models where
  diarize : String → Except String (List DiaTrack)
  transcribe : List ℚ → Except String String

/-- The audio-loading library, abstracted: `load path target` is the waveform
that `librosa.load(path, sr=target)` decodes and resamples; it may raise. -/
structure AudioLib where
  load : String → ℕ → Except String (List ℚ)

/-- Embedding of `librosa.load(audio_path, sr=16000)` (st-app.py line 51,
main.py line 47).  Per librosa's documented contract, when a target `sr` is
passed (not `None`) the returned sample rate is exactly the requested one, so
the call returns `(waveform, target)`. -/
def librosaLoad (lib : AudioLib) (path : String) (target : ℕ) :
    Except String (List ℚ × ℕ) :=
  match lib.load path target with
  | .error e => .error e
  | .ok y => .ok (y, target)

/-- Embedding of `progress_bar.progress((i + 1) / total_segments)`
(st-app.py line 86).  Python raises `ZeroDivisionError` when the divisor is
zero; otherwise the progress fraction is computed. -/
def progressStep (iPlusOne total : ℕ) : Except String ℚ :=
  if total = 0 then .error "ZeroDivisionError"
  else .ok ((iPlusOne : ℚ) / (total : ℚ))

/-- The per-segment loop of `process_audio` (st-app.py lines 59–86).  For each
diarization entry it computes the sample bounds `int(start*sr)`/`int(end*sr)`,
slices the waveform, transcribes the slice, appends a record when the stripped
text is nonempty, and updates the progress bar.  Returns the record list
together with the list of slices that were passed to the transcription model
(needed to state the slicing round-trip). -/
def transcribeLoop (f : List ℚ → Except String String) (y : List ℚ) (sr : ℕ)
    (total : ℕ) : ℕ → List DiaTrack →
    Except String (List Segment × List (List ℚ))
  | _, [] => .ok ([], [])
  | i, tr :: rest =>
    let startTime := tr.turn.start
    let endTime := tr.turn.«end»
    let startSample := pyInt (startTime * (sr : ℚ))
    let endSample := pyInt (endTime * (sr : ℚ))
    let segment := pySlice y startSample endSample
    match f segment with
    | .error e => .error e
    | .ok text =>
      let transcribedText := pyStrip text
      let newSegs : List Segment :=
        if transcribedText ≠ "" then
          [{ start := startTime, «end» := endTime, speaker := tr.speaker,
             text := transcribedText }]
        else []
      match progressStep (i + 1) total with
      | .error e => .error e
      | .ok _ =>
        match transcribeLoop f y sr total (i + 1) rest with
        | .error e => .error e
        | .ok (segs, slices) => .ok (newSegs ++ segs, segment :: slices)

/-- Embedding of `process_audio` (st-app.py lines 42–89): diarize, load the
audio at 16 kHz, run the per-segment loop, and return
`(segments, y.tolist(), sr)`. -/
def processAudio (m : Models) (lib : AudioLib) (audioPath : String) :
    Except String (List Segment × List ℚ × ℕ) :=
  match m.diarize audioPath with
  | .error e => .error e
  | .ok diarization =>
    match librosaLoad lib audioPath 16000 with
    | .error e => .error e
    | .ok (y, sr) =>
      let totalSegments := diarization.length
      match transcribeLoop m.transcribe y sr totalSegments 0 diarization with
      | .error e => .error e
      | .ok (segments, _) => .ok (segments, y, sr)

/-- The waveform slices `process_audio` passes to the transcription model, in
loop order (projection of the same loop). -/
def processAudioSlices (m : Models) (lib : AudioLib) (audioPath : String) :
    Except String (List (List ℚ)) :=
  match m.diarize audioPath with
  | .error e => .error e
  | .ok diarization =>
    match librosaLoad lib audioPath 16000 with
    | .error e => .error e
    | .ok (y, sr) =>
      let totalSegments := diarization.length
      match transcribeLoop m.transcribe y sr totalSegments 0 diarization with
      | .error e => .error e
      | .ok (_, slices) => .ok slices

/-- Banker's rounding of a rational to an integer (round half to even), the
rounding Python's fixed-point formatting uses. -/
def roundHalfEven (q : ℚ) : ℤ :=
  let f : ℤ := ⌊q⌋
  let r : ℚ := q - (f : ℚ)
  if r < 1 / 2 then f
  else if 1 / 2 < r then f + 1
  else if f % 2 = 0 then f else f + 1

/-- Two-digit zero-padded rendering of a natural below 100. -/
def pad2 (n : ℕ) : String :=
  if n < 10 then "0" ++ toString n else toString n

/-- Python `f"{q:.2f}"`: the time rendered with exactly two decimal places,
rounding half to even. -/
def formatSeconds (q : ℚ) : String :=
  let n := roundHalfEven (q * 100)
  let sign := if n < 0 then "-" else ""
  let m := n.natAbs
  sign ++ toString (m / 100) ++ "." ++ pad2 (m % 100)

/-- The transcript line format the spec claims: the segment's start and end
times (two decimals, `s` suffix) in brackets separated by `-->`, then the
speaker label, a colon, and the text. -/
def segmentLine (s : Segment) : String :=
  "[" ++ formatSeconds s.start ++ "s --> " ++ formatSeconds s.«end» ++ "s] "
    ++ s.speaker ++ ": " ++ s.text

/-- Result of one run of the batch script `src/programs/main.py`: the
(start, end, speaker, stripped text) data underlying each written line, the
file contents written to `diarized-transcription.txt`, the slices passed to
the transcription model, and the loaded waveform and sample rate. -/
structure MainPyResult where
  records : List Segment
  contents : String
  slices : List (List ℚ)
  y : List ℚ
  sr : ℕ
  deriving Repr, DecidableEq

/-- The per-turn loop of `main.py` (lines 52–75): slice the waveform by
`int(start*sr)`/`int(end*sr)`, transcribe, format
`f"[{start:.2f}s --> {end:.2f}s] {speaker}: {text.strip()}\n"` and write it.
Every turn is written — there is no empty-text filter in the batch script.
Alongside the accumulated file contents we record, per line, the tuple of
values interpolated into it, and the slice transcribed. -/
def mainPyLoop (f : List ℚ → Except String String) (y : List ℚ) (sr : ℕ) :
    List DiaTrack → Except String (List Segment × String × List (List ℚ))
  | [] => .ok ([], "", [])
  | tr :: rest =>
    let startTime := tr.turn.start
    let endTime := tr.turn.«end»
    let startSample := pyInt (startTime * (sr : ℚ))
    let endSample := pyInt (endTime * (sr : ℚ))
    let segment := pySlice y startSample endSample
    match f segment with
    | .error e => .error e
    | .ok text =>
      let outputString :=
        "[" ++ formatSeconds startTime ++ "s --> " ++ formatSeconds endTime
          ++ "s] " ++ tr.speaker ++ ": " ++ pyStrip text ++ "\n"
      match mainPyLoop f y sr rest with
      | .error e => .error e
      | .ok (recs, contents, slices) =>
        .ok ({ start := startTime, «end» := endTime, speaker := tr.speaker,
               text := pyStrip text } :: recs,
             outputString ++ contents, segment :: slices)

/-- Embedding of the processing part of `src/programs/main.py` (lines 29–75):
diarize the file, load it at 16 kHz (`librosa.load(file_path, sr=16000)`),
then run the write loop. -/
def mainPyRun (m : Models) (lib : AudioLib) (filePath : String) :
    Except String MainPyResult :=
  match m.diarize filePath with
  | .error e => .error e
  | .ok diarization =>
    match librosaLoad lib filePath 16000 with
    | .error e => .error e
    | .ok (y, sr) =>
      match mainPyLoop m.transcribe y sr diarization with
      | .error e => .error e
      | .ok (recs, contents, slices) =>
        .ok { records := recs, contents := contents, slices := slices,
              y := y, sr := sr }

/-- The UI session state (st-app.py lines 168–175): the four cached fields,
each `None` until a run stores it. -/
structure SessionState where
  processedSegments : Option (List Segment)
  processedAudioData : Option (List ℚ)
  processedSampleRate : Option ℕ
  processedFileName : Option String
  deriving Repr, DecidableEq

/-- The clear-results handler (st-app.py lines 212–217): each of the four
session fields is assigned `None` in turn. -/
def clearResults (st : SessionState) : SessionState :=
  let st := { st with processedSegments := none }
  let st := { st with processedAudioData := none }
  let st := { st with processedSampleRate := none }
  { st with processedFileName := none }

/-- Observable outcome of one click of the process button. -/
structure ProcessRunOutcome where
  state : SessionState
  errorMessageShown : Bool
  tempFileRemoved : Bool
  deriving Repr, DecidableEq

/-- The process-button handler (st-app.py lines 220–244): run `process_audio`
on the temporary file inside `try`; on success store the three results and the
uploaded file name in the session state; on exception show an error and leave
the session state untouched; in both cases the `finally` block removes the
temporary file. -/
def processButtonRun (m : Models) (lib : AudioLib) (uploadedFileName : String)
    (tmpPath : String) (st : SessionState) : ProcessRunOutcome :=
  match processAudio m lib tmpPath with
  | .ok (segments, audioData, sampleRate) =>
    { state := { processedSegments := some segments,
                 processedAudioData := some audioData,
                 processedSampleRate := some sampleRate,
                 processedFileName := some uploadedFileName },
      errorMessageShown := false,
      tempFileRemoved := true }
  | .error _ =>
    { state := st, errorMessageShown := true, tempFileRemoved := true }

/-- Python `len(set(seg['speaker'] for seg in segments))` (st-app.py
line 254): the number of distinct speaker labels among the segments. -/
def speakerCount (segments : List Segment) : ℕ :=
  (segments.map fun s => s.speaker).dedup.length

/-- The success banner (st-app.py lines 253–255). -/
def successMessage (segments : List Segment) : String :=
  "🎉 Processing complete! Found " ++ toString segments.length
    ++ " segments from " ++ toString (speakerCount segments) ++ " speakers."

/-- The downloadable transcript (st-app.py lines 261–266):
`"\n".join(f"[{start:.2f}s --> {end:.2f}s] {speaker}: {text}" ...)`. -/
def transcriptionText (segments : List Segment) : String :=
  String.intercalate "\n"
    (segments.map fun seg =>
      "[" ++ formatSeconds seg.start ++ "s --> " ++ formatSeconds seg.«end»
        ++ "s] " ++ seg.speaker ++ ": " ++ seg.text)

/-- What the results section of the UI renders (st-app.py lines 247–280). -/
inductive ResultsView where
  | resultsShown (banner : String) (downloadData : String) : ResultsView
  | noSegmentsWarning : ResultsView
  | notProcessedInfo : ResultsView
  deriving Repr, DecidableEq

/-- The results section (st-app.py lines 247–280): if segments are cached and
the list is truthy (nonempty), show the banner, the transcript, and the
download button; if cached but empty, warn that no segments were found;
otherwise prompt the user to process. -/
def renderResults (st : SessionState) : ResultsView :=
  match st.processedSegments with
  | some segments =>
    if segments.isEmpty then .noSegmentsWarning
    else .resultsShown (successMessage segments) (transcriptionText segments)
  | none => .notProcessedInfo

/-- The time-to-sample conversion both scripts use for one turn:
`y[int(start*sr) : int(end*sr)]`. -/
def sliceOf (y : List ℚ) (sr : ℕ) (tr : DiaTrack) : List ℚ :=
  pySlice y (pyInt (tr.turn.start * (sr : ℚ))) (pyInt (tr.turn.«end» * (sr : ℚ)))

/-- Concatenation of a list of strings (used to state what the batch script's
sequence of `output_file.write` calls accumulates). -/
def joinLines : List String → String
  | [] => ""
  | s :: rest => s ++ joinLines rest

/-- Token-handling outcome of an entry point's setup phase. -/
structure TokenUse where
  abortedBeforeModels : Bool
  modelsConstructed : Bool
  tokenPassedToPipeline : Option (Option String)
  deriving Repr, DecidableEq

/-- Token handling of `load_models` in the UI (st-app.py lines 20–38): read
`HF_TOKEN`; if it is falsy (`None` or empty) show an error and `st.stop()`
before any model is constructed; otherwise construct both models with the
token. -/
def loadModelsTokenUse (env : String → Option String) : TokenUse :=
  let hfToken := env "HF_TOKEN"
  if pyFalsy hfToken then
    { abortedBeforeModels := true, modelsConstructed := false,
      tokenPassedToPipeline := none }
  else
    { abortedBeforeModels := false, modelsConstructed := true,
      tokenPassedToPipeline := some hfToken }

/-- Token handling of `src/programs/main.py` (lines 26–33): read `HF_TOKEN`
and pass it to `Pipeline.from_pretrained` unconditionally — there is no check
and no abort. -/
def mainPyTokenUse (env : String → Option String) : TokenUse :=
  let hfToken := env "HF_TOKEN"
  { abortedBeforeModels := false, modelsConstructed := true,
    tokenPassedToPipeline := some hfToken }

/-- Token handling of `src/programs/diarize.py` (lines 17–20):
`os.getenv("HF_TOKEN")` is passed inline to `Pipeline.from_pretrained` with no
check. -/
def diarizePyTokenUse (env : String → Option String) : TokenUse :=
  { abortedBeforeModels := false, modelsConstructed := true,
    tokenPassedToPipeline := some (env "HF_TOKEN") }

/-! Concrete model instances used by witnesses and counterexamples. -/

/-- A one-turn diarization output. -/
def exTracks : List DiaTrack :=
  [{ turn := { start := 0, «end» := 1 }, track := "A",
     speaker := "SPEAKER_00" }]

/-- A three-sample waveform. -/
def exWave : List ℚ := [1, 0, 1]

/-- An audio library whose load always succeeds with `exWave`. -/
def exLib : AudioLib := { load := fun _ _ => .ok exWave }

/-- Models that find one turn and transcribe every slice to `" hello"`. -/
def okModels : Models :=
  { diarize := fun _ => .ok exTracks, transcribe := fun _ => .ok " hello" }

/-- The record `process_audio` produces from `okModels` on `exWave`. -/
def exSegment : Segment :=
  { start := 0, «end» := 1, speaker := "SPEAKER_00", text := "hello" }

/-- Models whose diarization raises. -/
def failModels : Models :=
  { diarize := fun _ => .error "CUDA out of memory",
    transcribe := fun _ => .ok "x" }

/-- Models that find one turn but transcribe every slice to whitespace. -/
def emptyTextModels : Models :=
  { diarize := fun _ => .ok exTracks, transcribe := fun _ => .ok "  " }

/-- Models whose diarization finds no turns. -/
def noTurnModels : Models :=
  { diarize := fun _ => .ok [], transcribe := fun _ => .ok "x" }

/-- An environment with no `HF_TOKEN`. -/
def envNoToken : String → Option String := fun _ => none

/-- The batch-script result for `okModels`. -/
def exMainPyResult : MainPyResult :=
  { records := [exSegment],
    contents := "[0.00s --> 1.00s] SPEAKER_00: hello\n",
    slices := [exWave], y := exWave, sr := 16000 }

/-- The batch-script result for `emptyTextModels`: the turn's line is written
even though its stripped text is empty. -/
def exEmptyTextResult : MainPyResult :=
  { records := [{ start := 0, «end» := 1, speaker := "SPEAKER_00",
                  text := "" }],
    contents := "[0.00s --> 1.00s] SPEAKER_00: \n",
    slices := [exWave], y := exWave, sr := 16000 }

/-! Helper lemmas about the two per-turn loops. -/

/-- Inversion of a successful run of the `process_audio` loop: the slices
transcribed are exactly the turns re-sliced by the time-to-sample conversion;
every emitted segment has nonempty text and takes `start`, `end` and `speaker`
from one of the turns; and the emitted `(start, end, speaker)` sequence is an
order-preserving subsequence of the turn sequence. -/
lemma transcribeLoop_ok_spec (f : List ℚ → Except String String) (y : List ℚ)
    (sr total : ℕ) :
    ∀ (l : List DiaTrack) (i : ℕ) (segs : List Segment)
      (slices : List (List ℚ)),
      transcribeLoop f y sr total i l = .ok (segs, slices) →
      slices = l.map (fun tr => sliceOf y sr tr) ∧
      (∀ s ∈ segs, s.text ≠ "" ∧ ∃ tr ∈ l, s.start = tr.turn.start ∧
        s.«end» = tr.turn.«end» ∧ s.speaker = tr.speaker) ∧
      (segs.map fun s => (s.start, s.«end», s.speaker)).Sublist
        (l.map fun tr => (tr.turn.start, tr.turn.«end», tr.speaker)) := by
  intro l
  induction l with
  | nil =>
    intro i segs slices h
    simp only [transcribeLoop, Except.ok.injEq, Prod.mk.injEq] at h
    obtain ⟨rfl, rfl⟩ := h
    simp
  | cons tr rest ih =>
    intro i segs slices h
    simp only [transcribeLoop] at h
    split at h
    next e heq => exact absurd h (by simp)
    next text htext =>
      split at h
      next e heq => exact absurd h (by simp)
      next p hp =>
        split at h
        next e heq => exact absurd h (by simp)
        next segs' slices' hrec =>
          simp only [Except.ok.injEq, Prod.mk.injEq] at h
          obtain ⟨hsegs, hslices⟩ := h
          subst hsegs hslices
          obtain ⟨ihs, ihm, ihsub⟩ := ih (i + 1) segs' slices' hrec
          refine ⟨by simp [sliceOf, ihs], ?_, ?_⟩
          · intro s hs
            by_cases hc : pyStrip text = ""
            · simp only [hc, ne_eq, not_true_eq_false, if_neg, ite_false,
                List.nil_append] at hs
              obtain ⟨hne, tr', htr', hfields⟩ := ihm s hs
              exact ⟨hne, tr', List.mem_cons_of_mem _ htr', hfields⟩
            · simp only [ne_eq, hc, not_false_eq_true, ite_true,
                List.cons_append, List.mem_cons, List.nil_append] at hs
              rcases hs with rfl | hs
              · exact ⟨hc, tr, List.mem_cons_self _ _, rfl, rfl, rfl⟩
              · obtain ⟨hne, tr', htr', hfields⟩ := ihm s hs
                exact ⟨hne, tr', List.mem_cons_of_mem _ htr', hfields⟩
          · by_cases hc : pyStrip text = ""
            · simp only [hc, ne_eq, not_true_eq_false, ite_false,
                List.nil_append, List.map_cons]
              exact ihsub.cons _
            · simp only [ne_eq, hc, not_false_eq_true, ite_true,
                List.cons_append, List.nil_append, List.map_cons]
              exact ihsub.cons₂ _
/-- Inversion of a successful run of the batch write loop: one record (one
written line) per turn — no filtering; the slices transcribed are the turns
re-sliced by the time-to-sample conversion; the accumulated file contents are
exactly the per-record formatted lines concatenated; and each record takes
`start`, `end` and `speaker` unchanged from its turn. -/
lemma mainPyLoop_ok_spec (f : List ℚ → Except String String) (y : List ℚ)
    (sr : ℕ) :
    ∀ (l : List DiaTrack) (recs : List Segment) (contents : String)
      (slices : List (List ℚ)),
      mainPyLoop f y sr l = .ok (recs, contents, slices) →
      recs.length = l.length ∧
      slices = l.map (fun tr => sliceOf y sr tr) ∧
      contents = joinLines (recs.map fun r => segmentLine r ++ "\n") ∧
      recs.map (fun s => (s.start, s.«end», s.speaker)) =
        l.map (fun tr => (tr.turn.start, tr.turn.«end», tr.speaker)) := by
  intro l
  induction l with
  | nil =>
    intro recs contents slices h
    simp only [mainPyLoop, Except.ok.injEq, Prod.mk.injEq] at h
    obtain ⟨rfl, rfl, rfl⟩ := h
    simp [joinLines]
  | cons tr rest ih =>
    intro recs contents slices h
    simp only [mainPyLoop] at h
    split at h
    next e heq => exact absurd h (by simp)
    next text htext =>
      split at h
      next e heq => exact absurd h (by simp)
      next recs' contents' slices' hrec =>
        simp only [Except.ok.injEq, Prod.mk.injEq] at h
        obtain ⟨hrecs, hcontents, hslices⟩ := h
        subst hrecs hcontents hslices
        obtain ⟨ihl, ihs, ihc, ihf⟩ := ih recs' contents' slices' hrec
        refine ⟨by simp [ihl], by simp [sliceOf, ihs], ?_, by simp [ihf]⟩
        simp only [List.map_cons, joinLines, ihc]
        rfl

/-- Inversion of a successful `process_audio` run: the diarization and the
audio load succeeded, the sample rate is the forced 16 kHz, and the segment
loop ran over the diarization's turns. -/
lemma processAudio_ok_inv (m : Models) (lib : AudioLib) (path : String)
    (segs : List Segment) (y : List ℚ) (sr : ℕ)
    (h : processAudio m lib path = .ok (segs, y, sr)) :
    sr = 16000 ∧ ∃ turns, m.diarize path = .ok turns ∧
      lib.load path 16000 = .ok y ∧
      ∃ slices, transcribeLoop m.transcribe y 16000 turns.length 0 turns =
        .ok (segs, slices) := by
  simp only [processAudio, librosaLoad] at h
  split at h
  next e heq => exact absurd h (by simp)
  next turns hturns =>
    split at h
    next e heq =>
      exact absurd h (by simp)
    next ypair srv hload =>
      split at hload
      next e heq => exact absurd hload (by simp)
      next y2 hy =>
        simp only [Except.ok.injEq, Prod.mk.injEq] at hload
        obtain ⟨rfl, rfl⟩ := hload
        split at h
        next e heq => exact absurd h (by simp)
        next segs' slices' hloop =>
          simp only [Except.ok.injEq, Prod.mk.injEq] at h
          obtain ⟨rfl, rfl, rfl⟩ := h
          exact ⟨rfl, turns, hturns, hy, slices', hloop⟩

/-- Inversion of a successful `processAudioSlices` run (same control flow as
`processAudio`, projecting the slices). -/
lemma processAudioSlices_ok_inv (m : Models) (lib : AudioLib) (path : String)
    (slices : List (List ℚ))
    (h : processAudioSlices m lib path = .ok slices) :
    ∃ turns, m.diarize path = .ok turns ∧ ∃ y, lib.load path 16000 = .ok y ∧
      ∃ segs, transcribeLoop m.transcribe y 16000 turns.length 0 turns =
        .ok (segs, slices) := by
  simp only [processAudioSlices, librosaLoad] at h
  split at h
  next e heq => exact absurd h (by simp)
  next turns hturns =>
    split at h
    next e heq =>
      exact absurd h (by simp)
    next ypair srv hload =>
      split at hload
      next e heq => exact absurd hload (by simp)
      next y2 hy =>
        simp only [Except.ok.injEq, Prod.mk.injEq] at hload
        obtain ⟨rfl, rfl⟩ := hload
        split at h
        next e heq => exact absurd h (by simp)
        next segs' slices' hloop =>
          simp only [Except.ok.injEq] at h
          subst h
          exact ⟨turns, hturns, y2, hy, segs', hloop⟩

/-- Inversion of a successful batch-script run. -/
lemma mainPyRun_ok_inv (m : Models) (lib : AudioLib) (path : String)
    (res : MainPyResult) (h : mainPyRun m lib path = .ok res) :
    res.sr = 16000 ∧ ∃ turns, m.diarize path = .ok turns ∧
      lib.load path 16000 = .ok res.y ∧
      mainPyLoop m.transcribe res.y 16000 turns =
        .ok (res.records, res.contents, res.slices) := by
  simp only [mainPyRun, librosaLoad] at h
  split at h
  next e heq => exact absurd h (by simp)
  next turns hturns =>
    split at h
    next e heq =>
      exact absurd h (by simp)
    next ypair srv hload =>
      split at hload
      next e heq => exact absurd hload (by simp)
      next y2 hy =>
        simp only [Except.ok.injEq, Prod.mk.injEq] at hload
        obtain ⟨rfl, rfl⟩ := hload
        split at h
        next e heq => exact absurd h (by simp)
        next recs' contents' slices' hloop =>
          simp only [Except.ok.injEq] at h
          subst h
          exact ⟨rfl, turns, hturns, hy, hloop⟩

lemma eval_processAudio_okModels :
    processAudio okModels exLib "a.wav" =
      .ok ([exSegment], exWave, 16000) := by
  simp [processAudio, librosaLoad, transcribeLoop, okModels, exLib, exTracks,
    exWave, exSegment, pyInt, pySlice, progressStep, pyStrip]

lemma eval_processAudioSlices_okModels :
    processAudioSlices okModels exLib "a.wav" = .ok [exWave] := by
  simp [processAudioSlices, librosaLoad, transcribeLoop, okModels, exLib,
    exTracks, exWave, pyInt, pySlice, progressStep, pyStrip]

lemma eval_mainPyRun_okModels :
    mainPyRun okModels exLib "conversation.wav" = .ok exMainPyResult := by
  simp [mainPyRun, librosaLoad, mainPyLoop, okModels, exLib, exTracks, exWave,
    exMainPyResult, exSegment, pyInt, pySlice, pyStrip, formatSeconds,
    roundHalfEven, pad2]
  rfl

lemma eval_mainPyRun_emptyTextModels :
    mainPyRun emptyTextModels exLib "conversation.wav" =
      .ok exEmptyTextResult := by
  simp [mainPyRun, librosaLoad, mainPyLoop, emptyTextModels, exLib, exTracks,
    exWave, exEmptyTextResult, pyInt, pySlice, pyStrip, formatSeconds,
    roundHalfEven, pad2]
  rfl

lemma eval_processAudio_emptyTextModels :
    processAudio emptyTextModels exLib "a.wav" = .ok ([], exWave, 16000) := by
  simp [processAudio, librosaLoad, transcribeLoop, emptyTextModels, exLib,
    exTracks, exWave, pyInt, pySlice, progressStep, pyStrip]

lemma eval_processAudio_failModels :
    processAudio failModels exLib "t.wav" = .error "CUDA out of memory" := rfl

lemma eval_processAudio_noTurnModels :
    processAudio noTurnModels exLib "a.wav" = .ok ([], exWave, 16000) := rfl

/-! Claim theorems. -/

/-- C1 (counterexample): the claim is false for the batch script.  With models
that transcribe the single diarization turn to whitespace, the UI's
`process_audio` drops the turn, but `main.py` still writes the transcript line
`"[0.00s --> 1.00s] SPEAKER_00: \n"` — a record for a turn whose stripped text
is empty appears among the written transcript lines. -/
theorem mainPy_writes_empty_text_record :
    processAudio emptyTextModels exLib "conversation.wav" =
      .ok ([], exWave, 16000) ∧
    mainPyRun emptyTextModels exLib "conversation.wav" =
      .ok exEmptyTextResult ∧
    exEmptyTextResult.records = [⟨0, 1, "SPEAKER_00", ""⟩] ∧
    pyStrip "  " = "" := by
  refine ⟨?_, eval_mainPyRun_emptyTextModels, rfl, by decide⟩
  simp [processAudio, librosaLoad, transcribeLoop, emptyTextModels, exLib,
    exTracks, exWave, pyInt, pySlice, progressStep, pyStrip]

/-- C1 (amended): in the UI's `process_audio`, a turn whose stripped text is
empty never appears in the returned segment list; the batch script `main.py`,
by contrast, writes one transcript line for every diarization turn, empty
text included (its record count equals the turn count). -/
theorem empty_text_dropped_in_ui_only (m : Models) (lib : AudioLib)
    (path : String) (segs : List Segment) (y : List ℚ) (sr : ℕ)
    (turns : List DiaTrack) (res : MainPyResult)
    (hui : processAudio m lib path = .ok (segs, y, sr))
    (hturns : m.diarize path = .ok turns)
    (hbatch : mainPyRun m lib path = .ok res) :
    (∀ s ∈ segs, s.text ≠ "") ∧ res.records.length = turns.length := by
  obtain ⟨-, turns', hturns', -, slices, hloop⟩ := processAudio_ok_inv _ _ _ _ _ _ hui
  rw [hturns] at hturns'
  obtain rfl : turns = turns' := by
    simpa using hturns'
  obtain ⟨-, hmem, -⟩ := transcribeLoop_ok_spec _ _ _ _ _ _ _ _ hloop
  obtain ⟨-, turns2, hturns2, -, hloop2⟩ := mainPyRun_ok_inv _ _ _ _ hbatch
  rw [hturns] at hturns2
  obtain rfl : turns = turns2 := by simpa using hturns2
  obtain ⟨hlen, -, -, -⟩ := mainPyLoop_ok_spec _ _ _ _ _ _ _ hloop2
  exact ⟨fun s hs => (hmem s hs).1, hlen⟩

/-- C1 (witness for the amended theorem): with `okModels`, the single emitted
UI segment has nonempty text, and the batch script wrote exactly one line for
the one turn. -/
theorem empty_text_dropped_in_ui_only_witness :
    exSegment.text ≠ "" ∧ exMainPyResult.records.length = exTracks.length := by
  have h := empty_text_dropped_in_ui_only okModels exLib "conversation.wav"
    [exSegment] exWave 16000 exTracks exMainPyResult
    (by
      simp [processAudio, librosaLoad, transcribeLoop, okModels, exLib,
        exTracks, exWave, exSegment, pyInt, pySlice, progressStep, pyStrip])
    rfl eval_mainPyRun_okModels
  exact ⟨h.1 exSegment (List.mem_singleton_self _), h.2⟩

/-- C2: for every run of the UI pipeline and of the batch script, the slices
passed to the transcription model are exactly the diarization turns re-sliced
from the loaded waveform by `y[int(start*sr) : int(end*sr)]` — re-applying the
time-to-sample conversion to the original waveform reproduces the transcribed
ranges. -/
theorem slices_roundtrip (m : Models) (lib : AudioLib) (path : String)
    (turns : List DiaTrack) (y : List ℚ) (slices : List (List ℚ))
    (res : MainPyResult)
    (hturns : m.diarize path = .ok turns)
    (hy : lib.load path 16000 = .ok y)
    (hsl : processAudioSlices m lib path = .ok slices)
    (hres : mainPyRun m lib path = .ok res) :
    slices = turns.map (fun tr => sliceOf y 16000 tr) ∧
    res.slices = turns.map (fun tr => sliceOf y 16000 tr) := by
  obtain ⟨turns', hturns', y', hy', segs, hloop⟩ :=
    processAudioSlices_ok_inv _ _ _ _ hsl
  rw [hturns] at hturns'
  obtain rfl : turns = turns' := by simpa using hturns'
  rw [hy] at hy'
  obtain rfl : y = y' := by simpa using hy'
  obtain ⟨hsl1, -, -⟩ := transcribeLoop_ok_spec _ _ _ _ _ _ _ _ hloop
  obtain ⟨-, turns2, hturns2, hy2, hloop2⟩ := mainPyRun_ok_inv _ _ _ _ hres
  rw [hturns] at hturns2
  obtain rfl : turns = turns2 := by simpa using hturns2
  rw [hy] at hy2
  obtain hyres : y = res.y := by simpa using hy2
  obtain ⟨-, hsl2, -, -⟩ := mainPyLoop_ok_spec _ _ _ _ _ _ _ hloop2
  subst hyres
  exact ⟨hsl1, hsl2⟩

/-- C2 (witness): with `okModels` the single transcribed slice is the whole
three-sample waveform, which the conversion reproduces. -/
theorem slices_roundtrip_witness :
    [exWave] = exTracks.map (fun tr => sliceOf exWave 16000 tr) ∧
    exMainPyResult.slices = exTracks.map (fun tr => sliceOf exWave 16000 tr) :=
  slices_roundtrip okModels exLib "conversation.wav" exTracks exWave [exWave]
    exMainPyResult rfl rfl
    (by
      simp [processAudioSlices, librosaLoad, transcribeLoop, okModels, exLib,
        exTracks, exWave, pyInt, pySlice, progressStep, pyStrip])
    eval_mainPyRun_okModels

/-- C3: if `process_audio` raises on the uploaded file, the process-button
handler shows the error message, removes the temporary file, and leaves the
cached session state exactly as it was before the run. -/
theorem process_failure_atomic (m : Models) (lib : AudioLib)
    (uploadedFileName tmpPath : String) (st : SessionState) (e : String)
    (h : processAudio m lib tmpPath = .error e) :
    processButtonRun m lib uploadedFileName tmpPath st =
      { state := st, errorMessageShown := true, tempFileRemoved := true } := by
  simp [processButtonRun, h]

/-- C3 (witness): a failing diarization leaves a populated session state
untouched while the error is shown and the temp file removed. -/
theorem process_failure_atomic_witness :
    processButtonRun failModels exLib "speech.wav" "tmp1234.wav"
      { processedSegments := some [exSegment],
        processedAudioData := some exWave,
        processedSampleRate := some 16000,
        processedFileName := some "old.wav" } =
    { state := { processedSegments := some [exSegment],
                 processedAudioData := some exWave,
                 processedSampleRate := some 16000,
                 processedFileName := some "old.wav" },
      errorMessageShown := true, tempFileRemoved := true } :=
  process_failure_atomic failModels exLib "speech.wav" "tmp1234.wav" _
    "CUDA out of memory" eval_processAudio_failModels

/-- C4 (counterexample): with no `HF_TOKEN` in the environment, both batch
scripts construct the diarization pipeline anyway, passing the absent token
straight through — no entry point other than the UI fails fast. -/
theorem batch_scripts_skip_token_check :
    mainPyTokenUse envNoToken =
      { abortedBeforeModels := false, modelsConstructed := true,
        tokenPassedToPipeline := some none } ∧
    diarizePyTokenUse envNoToken =
      { abortedBeforeModels := false, modelsConstructed := true,
        tokenPassedToPipeline := some none } ∧
    pyFalsy (envNoToken "HF_TOKEN") = true :=
  ⟨rfl, rfl, rfl⟩

/-- C4 (amended): when the token is absent or empty, the UI's `load_models`
reports it and stops before constructing any model; the batch scripts
`main.py` and `diarize.py` perform no check at all and construct the pipeline
with the missing token. -/
theorem token_fail_fast_only_in_ui (env : String → Option String)
    (h : pyFalsy (env "HF_TOKEN") = true) :
    loadModelsTokenUse env =
      { abortedBeforeModels := true, modelsConstructed := false,
        tokenPassedToPipeline := none } ∧
    mainPyTokenUse env =
      { abortedBeforeModels := false, modelsConstructed := true,
        tokenPassedToPipeline := some (env "HF_TOKEN") } ∧
    diarizePyTokenUse env =
      { abortedBeforeModels := false, modelsConstructed := true,
        tokenPassedToPipeline := some (env "HF_TOKEN") } := by
  refine ⟨?_, rfl, rfl⟩
  simp [loadModelsTokenUse, h]

/-- C4 (witness for the amended theorem): the empty environment. -/
theorem token_fail_fast_only_in_ui_witness :
    loadModelsTokenUse envNoToken =
      { abortedBeforeModels := true, modelsConstructed := false,
        tokenPassedToPipeline := none } ∧
    mainPyTokenUse envNoToken =
      { abortedBeforeModels := false, modelsConstructed := true,
        tokenPassedToPipeline := some (envNoToken "HF_TOKEN") } ∧
    diarizePyTokenUse envNoToken =
      { abortedBeforeModels := false, modelsConstructed := true,
        tokenPassedToPipeline := some (envNoToken "HF_TOKEN") } :=
  token_fail_fast_only_in_ui envNoToken rfl

/-- C5: the clear-results action resets all four cached session fields —
segment list, waveform, sample rate, and file name — to `None`, whatever the
previous state was. -/
theorem clear_results_resets_all (st : SessionState) :
    clearResults st =
      { processedSegments := none, processedAudioData := none,
        processedSampleRate := none, processedFileName := none } := rfl

/-- C6: every record `process_audio` emits takes `start`, `end` and `speaker`
unchanged from one of the diarization turns, and the emitted
`(start, end, speaker)` sequence is an order-preserving subsequence of the
turn sequence.  (That each record has exactly the four fields
`start`/`end`/`speaker`/`text` is the definition of `Segment`, which mirrors
the dict literal of st-app.py lines 76–83.) -/
theorem segment_fields_and_order (m : Models) (lib : AudioLib) (path : String)
    (turns : List DiaTrack) (segs : List Segment) (y : List ℚ) (sr : ℕ)
    (hturns : m.diarize path = .ok turns)
    (hui : processAudio m lib path = .ok (segs, y, sr)) :
    (∀ s ∈ segs, ∃ tr ∈ turns, s.start = tr.turn.start ∧
      s.«end» = tr.turn.«end» ∧ s.speaker = tr.speaker) ∧
    (segs.map fun s => (s.start, s.«end», s.speaker)).Sublist
      (turns.map fun tr => (tr.turn.start, tr.turn.«end», tr.speaker)) := by
  obtain ⟨-, turns', hturns', -, slices, hloop⟩ :=
    processAudio_ok_inv _ _ _ _ _ _ hui
  rw [hturns] at hturns'
  obtain rfl : turns = turns' := by simpa using hturns'
  obtain ⟨-, hmem, hsub⟩ := transcribeLoop_ok_spec _ _ _ _ _ _ _ _ hloop
  exact ⟨fun s hs => (hmem s hs).2, hsub⟩

/-- C6 (witness): the order-preservation conclusion at `okModels`. -/
theorem segment_fields_and_order_witness :
    ([exSegment].map fun s => (s.start, s.«end», s.speaker)).Sublist
      (exTracks.map fun tr => (tr.turn.start, tr.turn.«end», tr.speaker)) :=
  (segment_fields_and_order okModels exLib "a.wav" exTracks [exSegment]
    exWave 16000 rfl eval_processAudio_okModels).2

/-- C7: the batch script's output file is exactly the concatenation, one line
per written record, of `[start --> end] speaker: text` lines (two-decimal
times with an `s` suffix), and the UI's downloadable transcript is the same
format joined with newlines, one line per segment. -/
theorem transcript_line_format (m : Models) (lib : AudioLib) (path : String)
    (res : MainPyResult) (segs : List Segment)
    (hres : mainPyRun m lib path = .ok res) :
    res.contents = joinLines (res.records.map fun r => segmentLine r ++ "\n") ∧
    transcriptionText segs = String.intercalate "\n" (segs.map segmentLine) := by
  obtain ⟨-, turns, hturns, -, hloop⟩ := mainPyRun_ok_inv _ _ _ _ hres
  obtain ⟨-, -, hcontents, -⟩ := mainPyLoop_ok_spec _ _ _ _ _ _ _ hloop
  exact ⟨hcontents, rfl⟩

/-- C7 (witness): the concrete batch output and download text for
`okModels`. -/
theorem transcript_line_format_witness :
    exMainPyResult.contents =
      joinLines (exMainPyResult.records.map fun r => segmentLine r ++ "\n") ∧
    transcriptionText [exSegment] =
      String.intercalate "\n" ([exSegment].map segmentLine) :=
  transcript_line_format okModels exLib "conversation.wav" exMainPyResult
    [exSegment] eval_mainPyRun_okModels

/-- C8: with the models and the audio library treated as fixed functions, two
runs of `process_audio` on the same input produce the same segment count and
the same speaker count — the repository's orchestration adds no
nondeterminism. -/
theorem repeated_runs_agree (m m' : Models) (lib lib' : AudioLib)
    (path path' : String) (hm : m = m') (hl : lib = lib') (hp : path = path')
    (segs segs' : List Segment) (y y' : List ℚ) (sr sr' : ℕ)
    (h : processAudio m lib path = .ok (segs, y, sr))
    (h' : processAudio m' lib' path' = .ok (segs', y', sr')) :
    segs.length = segs'.length ∧ speakerCount segs = speakerCount segs' := by
  subst hm hl hp
  rw [h] at h'
  simp only [Except.ok.injEq, Prod.mk.injEq] at h'
  obtain ⟨rfl, rfl, rfl⟩ := h'
  exact ⟨rfl, rfl⟩

/-- C8 (witness): two runs at `okModels` agree on both counts. -/
theorem repeated_runs_agree_witness :
    [exSegment].length = [exSegment].length ∧
    speakerCount [exSegment] = speakerCount [exSegment] :=
  repeated_runs_agree okModels okModels exLib exLib "a.wav" "a.wav"
    rfl rfl rfl [exSegment] [exSegment] exWave exWave 16000 16000
    eval_processAudio_okModels eval_processAudio_okModels

/-- C9: every successful run of the UI pipeline and of the batch script
reports the forced sample rate 16000 — the audio is loaded with
`librosa.load(path, sr=16000)` in both, regardless of the file's native
rate. -/
theorem sample_rate_always_16000 (m : Models) (lib : AudioLib) (path : String)
    (segs : List Segment) (y : List ℚ) (sr : ℕ) (res : MainPyResult)
    (hui : processAudio m lib path = .ok (segs, y, sr))
    (hres : mainPyRun m lib path = .ok res) :
    sr = 16000 ∧ res.sr = 16000 :=
  ⟨(processAudio_ok_inv _ _ _ _ _ _ hui).1, (mainPyRun_ok_inv _ _ _ _ hres).1⟩

/-- C9 (witness): both concrete runs at `okModels` report 16000. -/
theorem sample_rate_always_16000_witness :
    (16000 : ℕ) = 16000 ∧ exMainPyResult.sr = 16000 :=
  sample_rate_always_16000 okModels exLib "conversation.wav" [exSegment]
    exWave 16000 exMainPyResult
    (by
      simp [processAudio, librosaLoad, transcribeLoop, okModels, exLib,
        exTracks, exWave, exSegment, pyInt, pySlice, progressStep, pyStrip])
    eval_mainPyRun_okModels

/-- C10: if diarization yields no turns (and the audio loads), `process_audio`
returns the empty segment list without raising — in particular the progress
update, which would raise `ZeroDivisionError` whenever it is evaluated with a
zero total, is never reached — and the UI then renders the no-segments warning
instead of results. -/
theorem zero_turns_safe (m : Models) (lib : AudioLib) (path : String)
    (y : List ℚ) (hturns : m.diarize path = .ok [])
    (hy : lib.load path 16000 = .ok y) :
    processAudio m lib path = .ok ([], y, 16000) ∧
    (∀ i, progressStep i 0 = .error "ZeroDivisionError") ∧
    (∀ uploadedFileName st0, renderResults
      (processButtonRun m lib uploadedFileName path st0).state =
        .noSegmentsWarning) := by
  have hrun : processAudio m lib path = .ok ([], y, 16000) := by
    simp [processAudio, librosaLoad, hturns, hy, transcribeLoop]
  refine ⟨hrun, fun i => by simp [progressStep], fun name st0 => ?_⟩
  simp [processButtonRun, hrun, renderResults]

/-- C10 (witness): with `noTurnModels`, the empty result, a sample
`ZeroDivisionError`, and the rendered warning, all at concrete inputs. -/
theorem zero_turns_safe_witness :
    processAudio noTurnModels exLib "a.wav" = .ok ([], exWave, 16000) ∧
    progressStep 1 0 = .error "ZeroDivisionError" ∧
    renderResults (processButtonRun noTurnModels exLib "speech.wav" "a.wav"
      { processedSegments := none, processedAudioData := none,
        processedSampleRate := none, processedFileName := none }).state =
      .noSegmentsWarning := by
  have h := zero_turns_safe noTurnModels exLib "a.wav" exWave rfl rfl
  exact ⟨h.1, h.2.1 1, h.2.2 "speech.wav" _⟩

end LearnTranscription
